import Mathlib

/-!
Verification of the edutrack frame-tracking core against its specification.

The TypeScript sources are shallowly embedded: JavaScript numbers are
modelled as rationals (ℚ), fallible steps as `Except`/`Option`, and the
zustand store as explicit state passing.  `Math.sqrt` appears in the source
only inside order comparisons (`sqrt d ≤ r`, `sqrt d1 < sqrt d2`); since
`sqrt` is strictly monotone on nonnegatives these comparisons are embedded
by comparing the squared quantities, which is exactly equivalent over the
reals and keeps every definition computable.
-/

namespace EduTrack

/-- Axis-aligned bounding box `{x, y, width, height}` (src/types, `BBox`). -/
structure BBox where
  x : ℚ
  y : ℚ
  width : ℚ
  height : ℚ
deriving DecidableEq

/-- Source function `bboxArea` from utils/aiDetection: `box.width * box.height`. -/
def bboxArea (box : BBox) : ℚ :=
  box.width * box.height

/-- Source function `bboxCenter` from utils/aiDetection: `(x + width/2, y + height/2)`. -/
def bboxCenter (box : BBox) : ℚ × ℚ :=
  (box.x + box.width / 2, box.y + box.height / 2)

/-- Squared center distance.  The source's `bboxDistance` returns
`Math.sqrt(dx*dx + dy*dy)`; it is only ever used in order comparisons, which
we express on the squares. -/
def bboxDistSq (box1 box2 : BBox) : ℚ :=
  let c1 := bboxCenter box1
  let c2 := bboxCenter box2
  (c2.1 - c1.1) * (c2.1 - c1.1) + (c2.2 - c1.2) * (c2.2 - c1.2)

/-- The intersection term of `calculateIoU` (utils/aiDetection):
`max(0, x2-x1) * max(0, y2-y1)` with `x1 = max(x, x)`, `x2 = min(x+w, x+w)`
and likewise for `y`. -/
def interArea (box1 box2 : BBox) : ℚ :=
  max 0 (min (box1.x + box1.width) (box2.x + box2.width) - max box1.x box2.x) *
    max 0 (min (box1.y + box1.height) (box2.y + box2.height) - max box1.y box2.y)

/-- Source function `calculateIoU` from utils/aiDetection:
`union = area1 + area2 - intersection`, result `union > 0 ? inter/union : 0`. -/
def calculateIoU (box1 box2 : BBox) : ℚ :=
  let intersection := interArea box1 box2
  let union := bboxArea box1 + bboxArea box2 - intersection
  if 0 < union then intersection / union else 0

/-- Spec §4.1: "boxes do not overlap" — the intersection interval is empty on
the x or on the y axis. -/
def boxesDisjoint (box1 box2 : BBox) : Prop :=
  min (box1.x + box1.width) (box2.x + box2.width) ≤ max box1.x box2.x ∨
    min (box1.y + box1.height) (box2.y + box2.height) ≤ max box1.y box2.y

/-- Subject location plus video timestamp (src/types, `Point`). -/
structure Point where
  x : ℚ
  y : ℚ
  timestamp : ℚ
deriving DecidableEq

/-- Per-frame tracking output (src/types, `TrackingResult`).  `centerOfMass =
none` encodes "no detection this frame"; the optional AI fields are `none`
when absent. -/
structure TrackingResult where
  frameNumber : ℕ
  timestamp : ℚ
  centerOfMass : Option Point
  pixelCount : ℚ
  brightnessAverage : ℚ
  aiBBox : Option BBox := none
  aiClass : Option String := none
  aiScore : Option ℚ := none
deriving DecidableEq

/-- One external candidate detection `{bbox, score, class}` (the field
`class` is a Lean keyword, rendered `cls`). -/
structure Detection where
  bbox : BBox
  score : ℚ
  cls : String
deriving DecidableEq

/-- Selection strategies of the continuity detector (src/types,
`AiTrackStrategy`). -/
inductive AiTrackStrategy where
  | nearestPrev
  | highestScore
  | largest
deriving DecidableEq

/-- Origin of the last accepted box (src/types, `AiBoxSource`). -/
inductive AiBoxSource where
  | auto
  | user
deriving DecidableEq

/-- Source function `selectBestDetection` from utils/aiDetection.  Each `reduce` keeps the
current best and replaces it only on a strictly better candidate; for
`nearestPrev` the source compares `bboxDistance` values, embedded here as the
equivalent comparison of squared distances. -/
def selectBestDetection (detections : List Detection) (strategy : AiTrackStrategy)
    (previousBox : Option BBox) : Option Detection :=
  match detections with
  | [] => none
  | d :: ds =>
    match strategy with
    | .highestScore =>
      some (ds.foldl (fun best curr => if best.score < curr.score then curr else best) d)
    | .largest =>
      some (ds.foldl (fun best curr =>
        if bboxArea best.bbox < bboxArea curr.bbox then curr else best) d)
    | .nearestPrev =>
      match previousBox with
      | none =>
        some (ds.foldl (fun best curr => if best.score < curr.score then curr else best) d)
      | some prev =>
        some (ds.foldl (fun best curr =>
          if bboxDistSq curr.bbox prev < bboxDistSq best.bbox prev then curr else best) d)

/-- Source function `selectByIoU` from utils/aiDetection: maximum IoU against the locked
box, first-seen candidate winning ties. -/
def selectByIoU (detections : List Detection) (lockedBox : BBox) : Option Detection :=
  match detections with
  | [] => none
  | d :: ds =>
    some (ds.foldl (fun best curr =>
      if calculateIoU best.bbox lockedBox < calculateIoU curr.bbox lockedBox then curr
      else best) d)

/-- AI-relevant slice of `TrackingConfiguration` (stores/trackingSlice). -/
structure AiConfig where
  aiConfidence : ℚ
  aiTargetClass : Option String
  aiTrackStrategy : AiTrackStrategy
  aiMaxJumpPx : ℚ
  aiLostFrameTolerance : ℕ
deriving DecidableEq

/-- The continuity state held in the tracking store
(`lastAiBox`, `lastAiBoxSource`, `lostCount`). -/
structure AiTrackState where
  lastAiBox : Option BBox
  lastAiBoxSource : AiBoxSource
  lostCount : ℕ
deriving DecidableEq

/-- Store action `setLastAiBox` (stores/trackingSlice): sets the box and its
source and resets `lostCount` to 0. -/
def setLastAiBox (st : AiTrackState) (bbox : Option BBox) (source : AiBoxSource) :
    AiTrackState :=
  { st with lastAiBox := bbox, lastAiBoxSource := source, lostCount := 0 }

/-- Store action `incrementLostCount` (stores/trackingSlice). -/
def incrementLostCount (st : AiTrackState) : AiTrackState :=
  { st with lostCount := st.lostCount + 1 }

/-- Store action `resetLostCount` (stores/trackingSlice). -/
def resetLostCount (st : AiTrackState) : AiTrackState :=
  { st with lostCount := 0 }

/-- The repeated empty-result literal of `processFrame` in useAiTracker:
`{frameNumber, timestamp, centerOfMass: null, pixelCount: 0,
brightnessAverage: 0}`. -/
def nullAiResult (frameNumber : ℕ) (timestamp : ℚ) : TrackingResult :=
  { frameNumber := frameNumber, timestamp := timestamp, centerOfMass := none,
    pixelCount := 0, brightnessAverage := 0 }

/-- Confidence filter of `processFrame` (useAiTracker):
`predictions.filter(p => p.score >= aiConfidence)`. -/
def filteredDetections (cfg : AiConfig) (predictions : List Detection) : List Detection :=
  predictions.filter (fun p => cfg.aiConfidence ≤ p.score)

/-- Target-class filter of `processFrame` (useAiTracker): with no target
class chosen the list is empty. -/
def targetDetections (cfg : AiConfig) (predictions : List Detection) : List Detection :=
  match cfg.aiTargetClass with
  | some c => (filteredDetections cfg predictions).filter (fun d => d.cls = c)
  | none => []

/-- Detection selection of `processFrame` (useAiTracker): by max IoU under a
user lock, otherwise by the configured strategy. -/
def selectDetection (cfg : AiConfig) (st : AiTrackState) (tds : List Detection) :
    Option Detection :=
  match st.lastAiBoxSource, st.lastAiBox with
  | .user, some lockedBox => selectByIoU tds lockedBox
  | _, _ => selectBestDetection tds cfg.aiTrackStrategy st.lastAiBox

/-- Source function `processFrame` of useAiTracker (lost-frame handling, selection, anti-jump
validation, state update), returning the frame result together with the
updated continuity state.  The anti-jump test `bboxDistance > aiMaxJumpPx` is
embedded as the equivalent squared comparison (the branch requires
`aiMaxJumpPx > 0`). -/
def processFrameAi (cfg : AiConfig) (st : AiTrackState) (predictions : List Detection)
    (frameNumber : ℕ) (timestamp : ℚ) : TrackingResult × AiTrackState :=
  let td := targetDetections cfg predictions
  if td.isEmpty then
    -- No target detected: incrementLostCount(), then compare the closure's
    -- pre-increment lostCount against the tolerance.
    let st1 := incrementLostCount st
    if cfg.aiLostFrameTolerance ≤ st.lostCount then
      (nullAiResult frameNumber timestamp, setLastAiBox st1 none .auto)
    else
      match st.lastAiBox with
      | some box =>
        ({ frameNumber := frameNumber, timestamp := timestamp,
           centerOfMass := some ⟨(bboxCenter box).1, (bboxCenter box).2, timestamp⟩,
           pixelCount := 0, brightnessAverage := 0,
           aiBBox := some box, aiClass := cfg.aiTargetClass, aiScore := some 0 }, st1)
      | none => (nullAiResult frameNumber timestamp, st1)
  else
    match selectDetection cfg st td with
    | none => (nullAiResult frameNumber timestamp, incrementLostCount st)
    | some sel =>
      match st.lastAiBox with
      | some lastBox =>
        if 0 < cfg.aiMaxJumpPx ∧ cfg.aiMaxJumpPx * cfg.aiMaxJumpPx < bboxDistSq sel.bbox lastBox then
          -- Reject jump, keep previous box.
          ({ frameNumber := frameNumber, timestamp := timestamp,
             centerOfMass := some ⟨(bboxCenter lastBox).1, (bboxCenter lastBox).2, timestamp⟩,
             pixelCount := 0, brightnessAverage := 0,
             aiBBox := some lastBox, aiClass := cfg.aiTargetClass,
             aiScore := some sel.score }, incrementLostCount st)
        else
          ({ frameNumber := frameNumber, timestamp := timestamp,
             centerOfMass := some ⟨(bboxCenter sel.bbox).1, (bboxCenter sel.bbox).2, timestamp⟩,
             pixelCount := ((round (sel.bbox.width * sel.bbox.height) : ℤ) : ℚ),
             brightnessAverage := 0,
             aiBBox := some sel.bbox, aiClass := cfg.aiTargetClass,
             aiScore := some sel.score },
           resetLostCount (setLastAiBox st (some sel.bbox) st.lastAiBoxSource))
      | none =>
        ({ frameNumber := frameNumber, timestamp := timestamp,
           centerOfMass := some ⟨(bboxCenter sel.bbox).1, (bboxCenter sel.bbox).2, timestamp⟩,
           pixelCount := ((round (sel.bbox.width * sel.bbox.height) : ℤ) : ℚ),
           brightnessAverage := 0,
           aiBBox := some sel.bbox, aiClass := cfg.aiTargetClass,
           aiScore := some sel.score },
         resetLostCount (setLastAiBox st (some sel.bbox) st.lastAiBoxSource))

/-- Intensity-detector configuration (utils/colorDetection,
`DetectionConfig`). -/
structure DetectionConfig where
  brightnessThreshold : ℚ
  minPixelCount : ℚ
deriving DecidableEq

/-- A pixel buffer: RGBA image data, with `pix x y` giving the RGB channels
at column `x`, row `y` (the alpha channel is unused by the detector). -/
structure ImageData where
  width : ℕ
  height : ℕ
  pix : ℕ → ℕ → ℕ × ℕ × ℕ

/-- Source function `calculateBrightness` (utils/colorDetection): `(r + g + b) / 3`. -/
def calculateBrightness (r g b : ℚ) : ℚ :=
  (r + g + b) / 3

/-- The running sums of the pixel loop in `detectBrightObjects`. -/
structure BrightAcc where
  sumX : ℚ
  sumY : ℚ
  count : ℕ
  totalBrightness : ℚ
deriving DecidableEq

/-- One pixel step of the `detectBrightObjects` loop: pixels whose brightness
is at or above the threshold contribute coordinates, count and brightness. -/
def brightStep (img : ImageData) (threshold : ℚ) (acc : BrightAcc) (x y : ℕ) : BrightAcc :=
  let rgb := img.pix x y
  let brightness := calculateBrightness rgb.1 rgb.2.1 rgb.2.2
  if threshold ≤ brightness then
    { sumX := acc.sumX + x, sumY := acc.sumY + y, count := acc.count + 1,
      totalBrightness := acc.totalBrightness + brightness }
  else acc

/-- The full `for y … for x …` accumulation of `detectBrightObjects`. -/
def brightAccum (img : ImageData) (threshold : ℚ) : BrightAcc :=
  (List.range img.height).foldl
    (fun acc y => (List.range img.width).foldl (fun acc x => brightStep img threshold acc x y) acc)
    ⟨0, 0, 0, 0⟩

/-- Result of `detectBrightObjects` (frame metadata is set by the caller). -/
structure DetectionOutput where
  centerOfMass : Option (ℚ × ℚ)
  pixelCount : ℕ
  brightnessAverage : ℚ
deriving DecidableEq

/-- Source function `detectBrightObjects` (utils/colorDetection): centroid of
at-or-above-threshold pixels when `count >= minPixelCount`, otherwise a null
position; `pixelCount` is the qualifying-pixel count in both cases. -/
def detectBrightObjects (img : ImageData) (config : DetectionConfig) : DetectionOutput :=
  let acc := brightAccum img config.brightnessThreshold
  if config.minPixelCount ≤ (acc.count : ℚ) then
    { centerOfMass := some (acc.sumX / acc.count, acc.sumY / acc.count),
      pixelCount := acc.count,
      brightnessAverage := acc.totalBrightness / acc.count }
  else
    { centerOfMass := none,
      pixelCount := acc.count,
      brightnessAverage := if 0 < acc.count then acc.totalBrightness / acc.count else 0 }

/-- The background-subtraction diff/threshold loop of `processFrame`
(useMouseTracker): per pixel, `absDiff = |current - background|`, then
`absDiff > threshold ? (invert ? 0 : 255) : (invert ? 255 : 0)`. -/
def computeDiffMask (currentGray backgroundGray : List ℕ) (threshold : ℚ) (invert : Bool) :
    List ℕ :=
  List.zipWith
    (fun (c b : ℕ) =>
      let absDiff : ℚ := |(c : ℚ) - (b : ℚ)|
      if threshold < absDiff then (if invert then 0 else 255) else (if invert then 255 else 0))
    currentGray backgroundGray

/-- A connected foreground component (useMouseTracker, `Blob`). -/
structure Blob where
  x : ℚ
  y : ℚ
  pixelCount : ℕ
  minX : ℕ
  maxX : ℕ
  minY : ℕ
  maxY : ℕ
deriving DecidableEq

/-- Area-closest selection used by the first and last tiers of
`selectMouseBlob`: minimizes `|pixelCount - expectedArea|`, the earlier blob
winning ties (strict improvement required, best initialized to `blobs[0]`). -/
def closestAreaBlob (b0 : Blob) (blobs : List Blob) (expectedArea : ℚ) : Blob :=
  (blobs.foldl
    (fun best blob =>
      let areaDiff := |(blob.pixelCount : ℚ) - expectedArea|
      match best.2 with
      | none => (blob, some areaDiff)
      | some minDiff => if areaDiff < minDiff then (blob, some areaDiff) else best)
    (b0, none)).1

/-- One distance-gated scoring pass of `selectMouseBlob`: blobs farther than
`maxJump` are skipped; the rest are scored `dist·wDist + areaDiff·100·wArea`
and the minimum kept (`none` score = JavaScript `Infinity`).  `dist` is the
caller-supplied center-distance function (`Math.sqrt(dx²+dy²)` in the
source). -/
def scoredBlobPass (dist : ℚ × ℚ → ℚ × ℚ → ℚ) (b0 : Blob) (blobs : List Blob)
    (expectedArea : ℚ) (prev : ℚ × ℚ) (maxJump wDist wArea : ℚ) : Blob × Option ℚ :=
  blobs.foldl
    (fun best blob =>
      let d := dist (blob.x, blob.y) prev
      if maxJump < d then best
      else
        let areaDiff := |(blob.pixelCount : ℚ) - expectedArea| / expectedArea
        let score := d * wDist + areaDiff * 100 * wArea
        match best.2 with
        | none => (blob, some score)
        | some bestScore => if score < bestScore then (blob, some score) else best)
    (b0, none)

/-- Source function `selectMouseBlob` (useMouseTracker): area-closest selection without a
prior position; otherwise a `0.7/0.3` distance+area score within
`maxJumpDistance`, retried at `1.5×` the distance with `0.5/0.5` weights,
falling back to pure area-closest selection.  Parametrized by the center
distance function used by the source. -/
def selectMouseBlob (dist : ℚ × ℚ → ℚ × ℚ → ℚ) (blobs : List Blob) (expectedArea : ℚ)
    (prevPosition : Option (ℚ × ℚ)) (maxJumpDistance : ℚ) : Option (ℚ × ℚ × ℕ) :=
  match blobs with
  | [] => none
  | b0 :: _ =>
    match prevPosition with
    | none =>
      let bestBlob := closestAreaBlob b0 blobs expectedArea
      some (bestBlob.x, bestBlob.y, bestBlob.pixelCount)
    | some prev =>
      let tier1 := scoredBlobPass dist b0 blobs expectedArea prev maxJumpDistance (7/10) (3/10)
      if tier1.2.isSome then
        some (tier1.1.x, tier1.1.y, tier1.1.pixelCount)
      else
        let tier2 :=
          scoredBlobPass dist b0 blobs expectedArea prev (maxJumpDistance * (3/2)) (1/2) (1/2)
        let bestBlob :=
          match tier2.2 with
          | none => closestAreaBlob b0 blobs expectedArea
          | some _ => tier2.1
        some (bestBlob.x, bestBlob.y, bestBlob.pixelCount)

/-- Result assembly of `processFrame` (useMouseTracker) after blob labeling:
no blobs or no selection yields a null result with `pixelCount = 0`;
otherwise the selected blob's centroid is rescaled to original resolution and
its pixel count rescaled and rounded. -/
def mouseFrameResult (dist : ℚ × ℚ → ℚ × ℚ → ℚ) (blobs : List Blob) (expectedArea : ℚ)
    (prevPosition : Option (ℚ × ℚ)) (maxJumpDistance scaleX scaleY : ℚ)
    (frameNumber : ℕ) (timestamp : ℚ) : TrackingResult :=
  match selectMouseBlob dist blobs expectedArea prevPosition maxJumpDistance with
  | none =>
    { frameNumber := frameNumber, timestamp := timestamp, centerOfMass := none,
      pixelCount := 0, brightnessAverage := 0 }
  | some result =>
    { frameNumber := frameNumber, timestamp := timestamp,
      centerOfMass := some ⟨result.1 * scaleX, result.2.1 * scaleY, timestamp⟩,
      pixelCount := ((round ((result.2.2 : ℚ) * scaleX * scaleY) : ℤ) : ℚ),
      brightnessAverage := 0 }

/-- Zone shapes (src/types, `ZoneShape`). -/
inductive ZoneShape where
  | rectangle
  | circle
deriving DecidableEq

/-- A user-defined zone (src/types, `Zone`): for rectangles `(x, y)` is the
top-left corner; for circles `(x, y)` is the center and `width / 2` the
radius. -/
structure Zone where
  id : String
  name : String
  shape : ZoneShape
  x : ℚ
  y : ℚ
  width : ℚ
  height : ℚ
deriving DecidableEq

/-- Source function `isPointInZone` (utils/zoneAnalysis).  The source's circle test
`Math.sqrt(dx² + dy²) <= radius` is embedded as the equivalent
`0 ≤ radius ∧ dx² + dy² ≤ radius²` (a negative radius admits no point, since
the square root is nonnegative). -/
def isPointInZone (point : Point) (zone : Zone) : Bool :=
  match zone.shape with
  | .rectangle =>
    decide (zone.x ≤ point.x) && decide (point.x ≤ zone.x + zone.width) &&
      decide (zone.y ≤ point.y) && decide (point.y ≤ zone.y + zone.height)
  | .circle =>
    let radius := zone.width / 2
    let dx := point.x - zone.x
    let dy := point.y - zone.y
    decide (0 ≤ radius) && decide (dx * dx + dy * dy ≤ radius * radius)

/-- Whether a frame result counts as inside the zone: a null position is
outside every zone. -/
def resultInZone (zone : Zone) (result : TrackingResult) : Bool :=
  match result.centerOfMass with
  | none => false
  | some p => isPointInZone p zone

/-- Per-zone aggregate metrics (src/types, `ZoneAnalytics`). -/
structure ZoneAnalytics where
  zoneId : String
  zoneName : String
  timeInZone : ℚ
  entryCount : ℕ
  exitCount : ℕ
  firstEntry : Option ℚ
  lastExit : Option ℚ
deriving DecidableEq

/-- The loop state of `analyzeZones` for one zone (running metrics plus the
`wasInZonePreviously` flag). -/
structure ZoneAcc where
  timeInZone : ℚ
  entryCount : ℕ
  exitCount : ℕ
  firstEntry : Option ℚ
  lastExit : Option ℚ
  wasIn : Bool
deriving DecidableEq

/-- One iteration of the `analyzeZones` result walk (utils/zoneAnalysis):
a null position exits the zone if previously inside; an in-zone position adds
one frame duration `1/fps` and counts an entry on a state change; an outside
position counts an exit on a state change. -/
def analyzeZoneStep (fps : ℚ) (zone : Zone) (acc : ZoneAcc) (result : TrackingResult) :
    ZoneAcc :=
  match result.centerOfMass with
  | none =>
    if acc.wasIn then
      { acc with
        exitCount := acc.exitCount + 1
        lastExit := some result.timestamp
        wasIn := false }
    else acc
  | some p =>
    if isPointInZone p zone then
      { acc with
        timeInZone := acc.timeInZone + 1 / fps,
        entryCount := if acc.wasIn then acc.entryCount else acc.entryCount + 1,
        firstEntry :=
          if acc.wasIn then acc.firstEntry
          else match acc.firstEntry with
            | none => some result.timestamp
            | some t => some t,
        wasIn := true }
    else
      if acc.wasIn then
        { acc with
          exitCount := acc.exitCount + 1
          lastExit := some result.timestamp
          wasIn := false }
      else acc

/-- Source function `analyzeZones` restricted to one zone: walk the results in order from the
all-zero state and package the metrics. -/
def analyzeZone (zone : Zone) (trackingResults : List TrackingResult) (fps : ℚ) :
    ZoneAnalytics :=
  let acc := trackingResults.foldl (analyzeZoneStep fps zone) ⟨0, 0, 0, none, none, false⟩
  { zoneId := zone.id, zoneName := zone.name, timeInZone := acc.timeInZone,
    entryCount := acc.entryCount, exitCount := acc.exitCount,
    firstEntry := acc.firstEntry, lastExit := acc.lastExit }

/-- Source function `analyzeZones` (utils/zoneAnalysis): one `ZoneAnalytics` per zone. -/
def analyzeZones (zones : List Zone) (trackingResults : List TrackingResult) (fps : ℚ) :
    List ZoneAnalytics :=
  zones.map (fun zone => analyzeZone zone trackingResults fps)

/-- The session slice of the tracking store (stores/trackingSlice):
`isTracking`, `trackingProgress`, `results`, `error`. -/
structure SessionStore where
  isTracking : Bool
  trackingProgress : ℚ
  results : List TrackingResult
  error : Option String
deriving DecidableEq

/-- Initial store state of `useTrackingStore`. -/
def initialStore : SessionStore :=
  { isTracking := false, trackingProgress := 0, results := [], error := none }

/-- Store action `startTracking`: enter the running state, clear prior
results, reset progress and error. -/
def startTracking (s : SessionStore) : SessionStore :=
  { s with isTracking := true, trackingProgress := 0, results := [], error := none }

/-- Store action `stopTracking`. -/
def stopTracking (s : SessionStore) : SessionStore :=
  { s with isTracking := false }

/-- Store action `resetTracking` (the session slice; the AI continuity
fields it also clears live in `AiTrackState`). -/
def resetTracking (s : SessionStore) : SessionStore :=
  { s with isTracking := false, trackingProgress := 0, results := [], error := none }

/-- Store action `setTrackingProgress`: clamps the submitted value with
`Math.min(100, Math.max(0, progress))`. -/
def setTrackingProgress (s : SessionStore) (progress : ℚ) : SessionStore :=
  { s with trackingProgress := min 100 (max 0 progress) }

/-- Store action `addTrackingResult`. -/
def addTrackingResult (s : SessionStore) (result : TrackingResult) : SessionStore :=
  { s with results := s.results ++ [result] }

/-- Store action `setTrackingResults`. -/
def setTrackingResults (s : SessionStore) (results : List TrackingResult) : SessionStore :=
  { s with results := results }

/-- Store action `setTrackingError`: records the error and leaves the
running state. -/
def setTrackingError (s : SessionStore) (error : Option String) : SessionStore :=
  { s with error := error, isTracking := false }

/-- The actions of the session slice, for stating store invariants. -/
inductive StoreAction where
  | start
  | stop
  | reset
  | setProgress (p : ℚ)
  | addResult (r : TrackingResult)
  | setResults (rs : List TrackingResult)
  | setError (e : Option String)

/-- Dispatch a store action. -/
def applyAction (s : SessionStore) : StoreAction → SessionStore
  | .start => startTracking s
  | .stop => stopTracking s
  | .reset => resetTracking s
  | .setProgress p => setTrackingProgress s p
  | .addResult r => addTrackingResult s r
  | .setResults rs => setTrackingResults s rs
  | .setError e => setTrackingError s e

/-- The progress value submitted by the tracking loops of useColorTracker,
useAiTracker and useKnnTracker: `((frameNumber + sampleStep) / totalFrames) * 100`. -/
def loopProgress (frameNumber sampleStep totalFrames : ℕ) : ℚ :=
  ((frameNumber : ℚ) + (sampleStep : ℚ)) / (totalFrames : ℚ) * 100

/-- The sampled frame numbers of the tracking loop
`for (frameNumber = 0; frameNumber < totalFrames; frameNumber += sampleStep)`. -/
def trackingFrames (totalFrames sampleStep : ℕ) : List ℕ :=
  (List.range totalFrames).filter (fun n => n % sampleStep = 0)

/-- The `runTracking` loop shared by useColorTracker and useAiTracker, over
the remaining sampled frame numbers.  At the top of each iteration the
cancellation flag is checked; a cancelled run records the error
"Tracking cancelled" and returns without touching the accumulated local
`results`.  A completed run commits the local results, forces progress to
100 and leaves the running state. -/
def runTrackingLoop (cancelled : ℕ → Bool) (frameResult : ℕ → Option TrackingResult)
    (totalFrames sampleStep : ℕ) :
    List ℕ → List TrackingResult → SessionStore → SessionStore
  | [], acc, store =>
    stopTracking (setTrackingProgress (setTrackingResults store acc) 100)
  | frameNumber :: rest, acc, store =>
    if cancelled frameNumber then setTrackingError store (some "Tracking cancelled")
    else
      let acc' :=
        match frameResult frameNumber with
        | some r => acc ++ [r]
        | none => acc
      let store' := setTrackingProgress store (loopProgress frameNumber sampleStep totalFrames)
      runTrackingLoop cancelled frameResult totalFrames sampleStep rest acc' store'

/-- Source function `runTracking` (useColorTracker / useAiTracker): `startTracking()`, then
the frame loop. -/
def runTracking (cancelled : ℕ → Bool) (frameResult : ℕ → Option TrackingResult)
    (totalFrames sampleStep : ℕ) (store : SessionStore) : SessionStore :=
  runTrackingLoop cancelled frameResult totalFrames sampleStep
    (trackingFrames totalFrames sampleStep) [] (startTracking store)

/-- Source function `pixelsToCm` (utils/calibration): identity when uncalibrated
(`pixelsPerCm` null or ≤ 0), otherwise `pixels / pixelsPerCm`. -/
def pixelsToCm (pixels : ℚ) (pixelsPerCm : Option ℚ) : ℚ :=
  match pixelsPerCm with
  | none => pixels
  | some p => if p ≤ 0 then pixels else pixels / p

/-- Source function `cmToPixels` (utils/calibration): identity when uncalibrated, otherwise
`cm * pixelsPerCm`. -/
def cmToPixels (cm : ℚ) (pixelsPerCm : Option ℚ) : ℚ :=
  match pixelsPerCm with
  | none => cm
  | some p => if p ≤ 0 then cm else cm * p

/-- Playback state touched by the temporal-median capture: the seek position
and the paused flag. -/
structure VideoState where
  currentTime : ℚ
  paused : Bool
deriving DecidableEq

/-- Sample timestamps of `captureBackground` (useMouseTracker):
`duration * i / (numSamples - 1)` with `numSamples = 15`. -/
def sampleTime (duration : ℚ) (i : ℕ) : ℚ :=
  duration * (i : ℚ) / ((15 : ℚ) - 1)

/-- The sampling loop of `captureBackground`: seek to each of the 15 sample
times and read a grayscale frame.  A failing frame read propagates as an
exception carrying the video state at the failure point — the source has no
try/finally around the loop, so nothing is restored on that path. -/
def captureSamples (v0 : VideoState) (duration : ℚ)
    (readFrame : ℚ → Except String (List ℕ)) :
    Except (String × VideoState) (List (List ℕ) × VideoState) :=
  (List.range 15).foldl
    (fun acc i =>
      match acc with
      | .error e => .error e
      | .ok (samples, v) =>
        let v' := { v with currentTime := sampleTime duration i }
        match readFrame (sampleTime duration i) with
        | .ok gray => .ok (samples ++ [gray], v')
        | .error e => .error (e, v'))
    (.ok ([], v0))

/-- Per-pixel temporal median of `captureBackground`: sort the 15 samples'
values at each pixel index and take the element at `Math.floor(15 / 2)`. -/
def temporalMedian (samples : List (List ℕ)) : List ℕ :=
  let pixelCount := (samples.headD []).length
  (List.range pixelCount).map
    (fun pixelIdx =>
      (((samples.map (fun sample => sample.getD pixelIdx 0)).mergeSort (· ≤ ·)).getD
        (15 / 2) 0))

/-- Source function `captureBackground` (useMouseTracker): sample 15 frames, compute the
temporal-median background, then — only on the success path — restore the
original playback position and, when the video had been playing, call
`play()`.  (The paused flag is never modified while sampling.) -/
def captureBackground (v0 : VideoState) (duration : ℚ)
    (readFrame : ℚ → Except String (List ℕ)) :
    Except (String × VideoState) (List ℕ × VideoState) :=
  match captureSamples v0 duration readFrame with
  | .error e => .error e
  | .ok (samples, v) =>
    let background := temporalMedian samples
    let restored :=
      { v with
        currentTime := v0.currentTime
        paused := if v0.paused then v.paused else false }
    .ok (background, restored)

/-! ## Helper lemmas -/

/-- A fold preserves any invariant that each step preserves. -/
theorem foldl_preserves {α β : Type} (f : β → α → β) (P : β → Prop)
    (hstep : ∀ b a, P b → P (f b a)) : ∀ (l : List α) (b : β), P b → P (l.foldl f b) := by
  intro l
  induction l with
  | nil => intro b hb; exact hb
  | cons a l ih => intro b hb; exact ih (f b a) (hstep b a hb)

/-- Zipping a list with itself through a function that is constant on the
diagonal yields a constant list. -/
theorem zipWith_self_const {α β : Type} (f : α → α → β) (k : β) (hf : ∀ c, f c c = k) :
    ∀ l : List α, List.zipWith f l l = List.replicate l.length k := by
  intro l
  induction l with
  | nil => rfl
  | cons c cs ih =>
    rw [List.zipWith_cons_cons, hf, List.length_cons, List.replicate_succ, ih]

theorem interArea_nonneg (a b : BBox) : 0 ≤ interArea a b :=
  mul_nonneg (le_max_left 0 _) (le_max_left 0 _)

theorem interArea_comm (a b : BBox) : interArea a b = interArea b a := by
  unfold interArea
  rw [max_comm a.x, max_comm a.y, min_comm (a.x + a.width), min_comm (a.y + a.height)]

theorem interArea_le_of_pos (a b : BBox) (h : 0 < interArea a b) :
    interArea a b ≤ bboxArea a ∧ interArea a b ≤ bboxArea b := by
  unfold interArea at h ⊢
  set tx := min (a.x + a.width) (b.x + b.width) - max a.x b.x with htx
  set ty := min (a.y + a.height) (b.y + b.height) - max a.y b.y with hty
  have hx0 : (0 : ℚ) ≤ max 0 tx := le_max_left 0 tx
  have hy0 : (0 : ℚ) ≤ max 0 ty := le_max_left 0 ty
  have hxpos : 0 < max 0 tx := by
    rcases hx0.lt_or_eq with h' | h'
    · exact h'
    · exfalso; rw [← h', zero_mul] at h; exact lt_irrefl 0 h
  have hypos : 0 < max 0 ty := by
    rcases hy0.lt_or_eq with h' | h'
    · exact h'
    · exfalso; rw [← h', mul_zero] at h; exact lt_irrefl 0 h
  have htxpos : 0 < tx := by
    by_contra h'
    push_neg at h'
    rw [max_eq_left h'] at hxpos
    exact lt_irrefl 0 hxpos
  have htypos : 0 < ty := by
    by_contra h'
    push_neg at h'
    rw [max_eq_left h'] at hypos
    exact lt_irrefl 0 hypos
  have hxeq : max 0 tx = tx := max_eq_right htxpos.le
  have hyeq : max 0 ty = ty := max_eq_right htypos.le
  have hxa : tx ≤ a.width := by
    have h1 : min (a.x + a.width) (b.x + b.width) ≤ a.x + a.width := min_le_left _ _
    have h2 : a.x ≤ max a.x b.x := le_max_left _ _
    rw [htx]; linarith
  have hxb : tx ≤ b.width := by
    have h1 : min (a.x + a.width) (b.x + b.width) ≤ b.x + b.width := min_le_right _ _
    have h2 : b.x ≤ max a.x b.x := le_max_right _ _
    rw [htx]; linarith
  have hya : ty ≤ a.height := by
    have h1 : min (a.y + a.height) (b.y + b.height) ≤ a.y + a.height := min_le_left _ _
    have h2 : a.y ≤ max a.y b.y := le_max_left _ _
    rw [hty]; linarith
  have hyb : ty ≤ b.height := by
    have h1 : min (a.y + a.height) (b.y + b.height) ≤ b.y + b.height := min_le_right _ _
    have h2 : b.y ≤ max a.y b.y := le_max_right _ _
    rw [hty]; linarith
  rw [hxeq, hyeq]
  constructor
  · exact mul_le_mul hxa hya htypos.le (htxpos.trans_le hxa).le
  · exact mul_le_mul hxb hyb htypos.le (htxpos.trans_le hxb).le

theorem interArea_eq_zero_of_area_nonpos (a b : BBox) (h : bboxArea a ≤ 0) :
    interArea a b = 0 := by
  unfold bboxArea at h
  have hwh : a.width ≤ 0 ∨ a.height ≤ 0 := by
    by_contra hc
    push_neg at hc
    exact absurd h (not_le.2 (mul_pos hc.1 hc.2))
  unfold interArea
  rcases hwh with hw | hh
  · have hx : min (a.x + a.width) (b.x + b.width) - max a.x b.x ≤ 0 := by
      have h1 : min (a.x + a.width) (b.x + b.width) ≤ a.x + a.width := min_le_left _ _
      have h2 : a.x ≤ max a.x b.x := le_max_left _ _
      linarith
    rw [max_eq_left hx, zero_mul]
  · have hy : min (a.y + a.height) (b.y + b.height) - max a.y b.y ≤ 0 := by
      have h1 : min (a.y + a.height) (b.y + b.height) ≤ a.y + a.height := min_le_left _ _
      have h2 : a.y ≤ max a.y b.y := le_max_left _ _
      linarith
    rw [max_eq_left hy, mul_zero]

/-! ## C8 — IoU properties -/

/-- C8: `calculateIoU` is symmetric, equals 1 on any box of positive width
and height, returns 0 on disjoint boxes and whenever either box has
non-positive area, and always lies in `[0, 1]`. -/
theorem iou_spec (a b : BBox) :
    calculateIoU a b = calculateIoU b a ∧
    (0 < a.width → 0 < a.height → calculateIoU a a = 1) ∧
    (boxesDisjoint a b → calculateIoU a b = 0) ∧
    (bboxArea a ≤ 0 ∨ bboxArea b ≤ 0 → calculateIoU a b = 0) ∧
    0 ≤ calculateIoU a b ∧ calculateIoU a b ≤ 1 := by
  refine ⟨?_, ?_, ?_, ?_, ?_, ?_⟩
  · simp only [calculateIoU]
    rw [interArea_comm, add_comm (bboxArea a)]
  · intro hw hh
    have hinter : interArea a a = a.width * a.height := by
      unfold interArea
      rw [min_self, max_self, min_self, max_self, add_sub_cancel_left, add_sub_cancel_left,
        max_eq_right hw.le, max_eq_right hh.le]
    have hpos : 0 < a.width * a.height := mul_pos hw hh
    have harea : bboxArea a + bboxArea a - a.width * a.height = a.width * a.height := by
      unfold bboxArea; ring
    simp only [calculateIoU, hinter, harea, if_pos hpos]
    exact div_self hpos.ne'
  · intro hd
    have hzero : interArea a b = 0 := by
      unfold interArea
      rcases hd with h1 | h1
      · rw [max_eq_left (sub_nonpos.2 h1), zero_mul]
      · rw [max_eq_left (sub_nonpos.2 h1), mul_zero]
    simp only [calculateIoU, hzero]
    split
    · exact zero_div _
    · rfl
  · intro harea
    have hzero : interArea a b = 0 := by
      rcases harea with h1 | h1
      · exact interArea_eq_zero_of_area_nonpos a b h1
      · rw [interArea_comm]; exact interArea_eq_zero_of_area_nonpos b a h1
    simp only [calculateIoU, hzero]
    split
    · exact zero_div _
    · rfl
  · simp only [calculateIoU]
    split
    · exact div_nonneg (interArea_nonneg a b) (by linarith)
    · exact le_refl 0
  · simp only [calculateIoU]
    split
    · rename_i hu
      rw [div_le_one hu]
      rcases (interArea_nonneg a b).lt_or_eq with hi | hi
      · have hle := interArea_le_of_pos a b hi
        linarith [hle.1, hle.2]
      · linarith
    · norm_num

/-- Witness for C8 at concrete boxes: the self-IoU of `(0,0,10,10)` is 1 and
the IoU with the disjoint box `(20,20,5,5)` is 0. -/
theorem iou_spec_witness :
    calculateIoU ⟨0, 0, 10, 10⟩ ⟨0, 0, 10, 10⟩ = 1 ∧
    calculateIoU ⟨0, 0, 10, 10⟩ ⟨20, 20, 5, 5⟩ = 0 := by
  constructor
  · exact (iou_spec ⟨0, 0, 10, 10⟩ ⟨0, 0, 10, 10⟩).2.1 (by norm_num) (by norm_num)
  · exact (iou_spec ⟨0, 0, 10, 10⟩ ⟨20, 20, 5, 5⟩).2.2.1 (by left; norm_num)

/-! ## C9 — calibration round-trip -/

/-- C9: for every value and every positive pixels-per-unit factor, converting
to pixels and back returns the value exactly. -/
theorem calibration_roundtrip (v ppu : ℚ) (h : 0 < ppu) :
    pixelsToCm (cmToPixels v (some ppu)) (some ppu) = v := by
  simp only [pixelsToCm, cmToPixels, if_neg (not_le.2 h)]
  exact mul_div_cancel_right₀ v h.ne'

/-- Witness for C9 at `v = 7`, `ppu = 2`. -/
theorem calibration_roundtrip_witness :
    0 < (2 : ℚ) ∧ pixelsToCm (cmToPixels 7 (some 2)) (some 2) = 7 :=
  ⟨by norm_num, calibration_roundtrip 7 2 (by norm_num)⟩

/-! ## C7 — zone analyzer semantics -/

/-- C7: in the result walk, a null-position frame is outside every zone and
exits on a state change; entry/exit counts change exactly on inside/outside
state changes; time in zone accumulates `1/fps` per in-zone frame; and the
fps=10 scenario of 5 in-zone frames followed by 5 outside frames yields
`timeInZone = 0.5`, `entryCount = 1`, `exitCount = 1`. -/
theorem zone_analysis_spec :
    (∀ (fps : ℚ) (zone : Zone) (acc : ZoneAcc) (r : TrackingResult),
      (analyzeZoneStep fps zone acc r).wasIn = resultInZone zone r ∧
      (analyzeZoneStep fps zone acc r).timeInZone =
        acc.timeInZone + (if resultInZone zone r then 1 / fps else 0) ∧
      (analyzeZoneStep fps zone acc r).entryCount =
        acc.entryCount + (if resultInZone zone r && !acc.wasIn then 1 else 0) ∧
      (analyzeZoneStep fps zone acc r).exitCount =
        acc.exitCount + (if !resultInZone zone r && acc.wasIn then 1 else 0) ∧
      (resultInZone zone r = false → acc.wasIn = true →
        (analyzeZoneStep fps zone acc r).lastExit = some r.timestamp)) ∧
    (analyzeZone ⟨"z1", "arena", .rectangle, 0, 0, 100, 100⟩
        [⟨0, 0, some ⟨10, 10, 0⟩, 0, 0, none, none, none⟩,
         ⟨1, 1/10, some ⟨10, 10, 1/10⟩, 0, 0, none, none, none⟩,
         ⟨2, 2/10, some ⟨10, 10, 2/10⟩, 0, 0, none, none, none⟩,
         ⟨3, 3/10, some ⟨10, 10, 3/10⟩, 0, 0, none, none, none⟩,
         ⟨4, 4/10, some ⟨10, 10, 4/10⟩, 0, 0, none, none, none⟩,
         ⟨5, 5/10, some ⟨200, 200, 5/10⟩, 0, 0, none, none, none⟩,
         ⟨6, 6/10, some ⟨200, 200, 6/10⟩, 0, 0, none, none, none⟩,
         ⟨7, 7/10, some ⟨200, 200, 7/10⟩, 0, 0, none, none, none⟩,
         ⟨8, 8/10, some ⟨200, 200, 8/10⟩, 0, 0, none, none, none⟩,
         ⟨9, 9/10, some ⟨200, 200, 9/10⟩, 0, 0, none, none, none⟩] 10) =
      ⟨"z1", "arena", 1/2, 1, 1, some 0, some (5/10)⟩ := by
  constructor
  · intro fps zone acc r
    unfold analyzeZoneStep resultInZone
    cases hcm : r.centerOfMass with
    | none => cases hw : acc.wasIn <;> simp [hw]
    | some p => cases hin : isPointInZone p zone <;> cases hw : acc.wasIn <;> simp [hin, hw]
  · norm_num [analyzeZone, analyzeZoneStep, isPointInZone]

/-- Witness for C7's hypotheses: an out-of-zone frame after an in-zone state
records the exit timestamp. -/
theorem zone_analysis_spec_witness :
    (analyzeZoneStep 10 ⟨"z1", "arena", .rectangle, 0, 0, 100, 100⟩
        ⟨1/2, 1, 0, some 0, none, true⟩
        ⟨5, 7/10, some ⟨200, 200, 7/10⟩, 0, 0, none, none, none⟩).lastExit = some (7/10) :=
  (zone_analysis_spec.1 10 ⟨"z1", "arena", .rectangle, 0, 0, 100, 100⟩
      ⟨1/2, 1, 0, some 0, none, true⟩
      ⟨5, 7/10, some ⟨200, 200, 7/10⟩, 0, 0, none, none, none⟩).2.2.2.2
    (by norm_num [resultInZone, isPointInZone]) rfl

/-! ## C2 — null position vs pixel count -/

theorem selectMouseBlob_eq_none_iff (dist : ℚ × ℚ → ℚ × ℚ → ℚ) (blobs : List Blob)
    (expectedArea : ℚ) (prevPosition : Option (ℚ × ℚ)) (maxJumpDistance : ℚ) :
    selectMouseBlob dist blobs expectedArea prevPosition maxJumpDistance = none ↔ blobs = [] := by
  cases blobs with
  | nil => simp [selectMouseBlob]
  | cons b0 rest =>
    cases prevPosition with
    | none => simp [selectMouseBlob]
    | some prev =>
      simp only [selectMouseBlob]
      split <;> simp

/-- C2 counterexample: a 1×1 all-bright buffer with `brightnessThreshold =
200` and `minPixelCount = 2` yields a null position with `pixelCount = 1`,
so `position == null ⟺ pixelCount == 0` fails for the Intensity detector. -/
theorem detection_nullness_cex :
    (detectBrightObjects ⟨1, 1, fun _ _ => (255, 255, 255)⟩ ⟨200, 2⟩).centerOfMass = none ∧
    (detectBrightObjects ⟨1, 1, fun _ _ => (255, 255, 255)⟩ ⟨200, 2⟩).pixelCount ≠ 0 := by
  have hr : List.range 1 = [0] := rfl
  norm_num [detectBrightObjects, brightAccum, brightStep, calculateBrightness, hr]

/-- C2 amended: the Intensity detector's position is null exactly when the
qualifying-pixel count is below `minPixelCount`; the Background-Subtraction
per-frame result has a null position exactly when no blob survives
filtering, and a null position always comes with `pixelCount = 0`. -/
theorem detection_nullness_amended :
    (∀ (img : ImageData) (config : DetectionConfig),
      (detectBrightObjects img config).centerOfMass = none ↔
        ((detectBrightObjects img config).pixelCount : ℚ) < config.minPixelCount) ∧
    (∀ (dist : ℚ × ℚ → ℚ × ℚ → ℚ) (blobs : List Blob) (expectedArea : ℚ)
        (prevPosition : Option (ℚ × ℚ)) (maxJumpDistance scaleX scaleY : ℚ)
        (frameNumber : ℕ) (timestamp : ℚ),
      ((mouseFrameResult dist blobs expectedArea prevPosition maxJumpDistance scaleX scaleY
          frameNumber timestamp).centerOfMass = none ↔ blobs = []) ∧
      ((mouseFrameResult dist blobs expectedArea prevPosition maxJumpDistance scaleX scaleY
          frameNumber timestamp).centerOfMass = none →
        (mouseFrameResult dist blobs expectedArea prevPosition maxJumpDistance scaleX scaleY
          frameNumber timestamp).pixelCount = 0)) := by
  constructor
  · intro img config
    unfold detectBrightObjects
    by_cases h : config.minPixelCount ≤ ((brightAccum img config.brightnessThreshold).count : ℚ)
    · rw [if_pos h]
      simp [not_lt.2 h]
    · rw [if_neg h]
      simp [not_le.1 h]
  · intro dist blobs ea prev mj sx sy fn ts
    unfold mouseFrameResult
    cases hsel : selectMouseBlob dist blobs ea prev mj with
    | none =>
      have hb : blobs = [] := (selectMouseBlob_eq_none_iff dist blobs ea prev mj).1 hsel
      simp [hb]
    | some r =>
      have hb : blobs ≠ [] := by
        intro hnil
        rw [hnil] at hsel
        simp [selectMouseBlob] at hsel
      simp [hb]

/-- Witness for C2's amended claim: on an empty blob list the
background-subtraction result has a null position, and the theorem then
forces `pixelCount = 0`. -/
theorem detection_nullness_amended_witness :
    (mouseFrameResult (fun _ _ => 0) [] 50 none 120 4 4 0 0).pixelCount = 0 :=
  (detection_nullness_amended.2 (fun _ _ => 0) [] 50 none 120 4 4 0 0).2 rfl

/-! ## C3 — zero-difference frames and the invert flag -/

/-- C3 counterexample: with `invert = true`, feeding the background back as
the current frame marks every pixel as foreground (255), not background. -/
theorem diff_mask_invert_cex :
    computeDiffMask [5] [5] 25 true = [255] ∧
    computeDiffMask [5] [5] 25 true ≠ [0] := by
  norm_num [computeDiffMask]

/-- C3 amended: feeding the cached background back as the current frame
makes every per-pixel absolute difference 0, so for any nonnegative
`diffThreshold` the mask is all-background (0) when `invert = false` but
all-foreground (255) when `invert = true`. -/
theorem diff_mask_zero_diff (gray : List ℕ) (threshold : ℚ) (h : 0 ≤ threshold) :
    computeDiffMask gray gray threshold false = List.replicate gray.length 0 ∧
    computeDiffMask gray gray threshold true = List.replicate gray.length 255 := by
  unfold computeDiffMask
  constructor
  · refine zipWith_self_const _ _ ?_ gray
    intro c
    have habs : |(c : ℚ) - (c : ℚ)| = 0 := by rw [sub_self, abs_zero]
    simp [habs, not_lt.2 h]
  · refine zipWith_self_const _ _ ?_ gray
    intro c
    have habs : |(c : ℚ) - (c : ℚ)| = 0 := by rw [sub_self, abs_zero]
    simp [habs, not_lt.2 h]

/-- Witness for C3's amended claim at threshold 25 on a two-pixel frame. -/
theorem diff_mask_zero_diff_witness :
    (0 : ℚ) ≤ 25 ∧
      (computeDiffMask [7, 9] [7, 9] 25 false = List.replicate 2 0 ∧
        computeDiffMask [7, 9] [7, 9] 25 true = List.replicate 2 255) :=
  ⟨by norm_num, diff_mask_zero_diff [7, 9] 25 (by norm_num)⟩

/-! ## C1 — anti-jump rejection -/

/-- C1 counterexample: prior box `(0,0,10,10)`, sole candidate
`(500,500,10,10)` with score 0.9, `maxJumpPx = 50`.  The result does report
the prior box's center, but its detection score is the candidate's 0.9, not
the 0 the claim requires. -/
theorem antijump_score_cex :
    (processFrameAi ⟨1/2, some "mouse", .nearestPrev, 50, 5⟩ ⟨some ⟨0, 0, 10, 10⟩, .auto, 0⟩
        [⟨⟨500, 500, 10, 10⟩, 9/10, "mouse"⟩] 3 2).1.aiScore = some (9/10) ∧
    (processFrameAi ⟨1/2, some "mouse", .nearestPrev, 50, 5⟩ ⟨some ⟨0, 0, 10, 10⟩, .auto, 0⟩
        [⟨⟨500, 500, 10, 10⟩, 9/10, "mouse"⟩] 3 2).1.aiScore ≠ some 0 ∧
    (processFrameAi ⟨1/2, some "mouse", .nearestPrev, 50, 5⟩ ⟨some ⟨0, 0, 10, 10⟩, .auto, 0⟩
        [⟨⟨500, 500, 10, 10⟩, 9/10, "mouse"⟩] 3 2).1.centerOfMass = some ⟨5, 5, 2⟩ := by
  norm_num [processFrameAi, targetDetections, filteredDetections, selectDetection,
    selectBestDetection, bboxDistSq, bboxCenter, incrementLostCount, nullAiResult]

/-- C1 amended: when a previous accepted box exists, `maxJumpPx > 0` and the
selected candidate's center distance exceeds `maxJumpPx`, the result reports
the last accepted box's center as the position with `pixelCount = 0` and the
last box as `aiBBox` — but `aiScore` carries the rejected candidate's score,
not 0 — and the lost counter is incremented while the last box is kept. -/
theorem antijump_keeps_candidate_score (cfg : AiConfig) (st : AiTrackState)
    (preds : List Detection) (frameNumber : ℕ) (timestamp : ℚ) (sel : Detection)
    (lastBox : BBox)
    (hne : targetDetections cfg preds ≠ [])
    (hsel : selectDetection cfg st (targetDetections cfg preds) = some sel)
    (hlb : st.lastAiBox = some lastBox)
    (hjump : 0 < cfg.aiMaxJumpPx ∧
      cfg.aiMaxJumpPx * cfg.aiMaxJumpPx < bboxDistSq sel.bbox lastBox) :
    processFrameAi cfg st preds frameNumber timestamp =
      ({ frameNumber := frameNumber, timestamp := timestamp,
         centerOfMass := some ⟨(bboxCenter lastBox).1, (bboxCenter lastBox).2, timestamp⟩,
         pixelCount := 0, brightnessAverage := 0,
         aiBBox := some lastBox, aiClass := cfg.aiTargetClass,
         aiScore := some sel.score }, incrementLostCount st) := by
  have hne' : (targetDetections cfg preds).isEmpty = false := by
    cases htd : targetDetections cfg preds with
    | nil => exact absurd htd hne
    | cons a l => rfl
  simp only [processFrameAi]
  rw [hne']
  simp only [Bool.false_eq_true, if_false, hsel, hlb, if_pos hjump]

/-- Witness for C1's amended claim at the counterexample's concrete input. -/
theorem antijump_keeps_candidate_score_witness :
    processFrameAi ⟨1/2, some "mouse", .nearestPrev, 50, 5⟩ ⟨some ⟨0, 0, 10, 10⟩, .auto, 0⟩
        [⟨⟨500, 500, 10, 10⟩, 9/10, "mouse"⟩] 3 2 =
      ({ frameNumber := 3, timestamp := 2,
         centerOfMass := some ⟨(bboxCenter ⟨0, 0, 10, 10⟩).1, (bboxCenter ⟨0, 0, 10, 10⟩).2, 2⟩,
         pixelCount := 0, brightnessAverage := 0,
         aiBBox := some ⟨0, 0, 10, 10⟩, aiClass := some "mouse",
         aiScore := some (9/10) }, incrementLostCount ⟨some ⟨0, 0, 10, 10⟩, .auto, 0⟩) :=
  antijump_keeps_candidate_score ⟨1/2, some "mouse", .nearestPrev, 50, 5⟩
    ⟨some ⟨0, 0, 10, 10⟩, .auto, 0⟩ [⟨⟨500, 500, 10, 10⟩, 9/10, "mouse"⟩] 3 2
    ⟨⟨500, 500, 10, 10⟩, 9/10, "mouse"⟩ ⟨0, 0, 10, 10⟩
    (by norm_num [targetDetections, filteredDetections])
    (by norm_num [selectDetection, selectBestDetection, targetDetections, filteredDetections])
    rfl
    (by norm_num [bboxDistSq, bboxCenter])

/-! ## C5 — lost-frame tolerance -/

theorem targetDetections_nil (cfg : AiConfig) : targetDetections cfg [] = [] := by
  unfold targetDetections filteredDetections
  cases cfg.aiTargetClass <;> simp

/-- C5: with `lostFrameTolerance = 3`, starting from an accepted box and lost
counter 0, the first three candidate-less frames still report the last known
box's center; the fourth reports a null position and clears the lock (box
`none`, source `auto`, counter reset); and any accepted detection leaves the
lost counter at zero with the selected box stored. -/
theorem lost_tolerance_spec (cfg : AiConfig) (b : BBox) (src : AiBoxSource)
    (f1 f2 f3 f4 : ℕ) (t1 t2 t3 t4 : ℚ) (htol : cfg.aiLostFrameTolerance = 3) :
    processFrameAi cfg ⟨some b, src, 0⟩ [] f1 t1 =
      (⟨f1, t1, some ⟨(bboxCenter b).1, (bboxCenter b).2, t1⟩, 0, 0, some b,
        cfg.aiTargetClass, some 0⟩, ⟨some b, src, 1⟩) ∧
    processFrameAi cfg ⟨some b, src, 1⟩ [] f2 t2 =
      (⟨f2, t2, some ⟨(bboxCenter b).1, (bboxCenter b).2, t2⟩, 0, 0, some b,
        cfg.aiTargetClass, some 0⟩, ⟨some b, src, 2⟩) ∧
    processFrameAi cfg ⟨some b, src, 2⟩ [] f3 t3 =
      (⟨f3, t3, some ⟨(bboxCenter b).1, (bboxCenter b).2, t3⟩, 0, 0, some b,
        cfg.aiTargetClass, some 0⟩, ⟨some b, src, 3⟩) ∧
    processFrameAi cfg ⟨some b, src, 3⟩ [] f4 t4 =
      (nullAiResult f4 t4, ⟨none, .auto, 0⟩) ∧
    (∀ (st : AiTrackState) (preds : List Detection) (fn : ℕ) (ts : ℚ) (sel : Detection),
      targetDetections cfg preds ≠ [] →
      selectDetection cfg st (targetDetections cfg preds) = some sel →
      (∀ lastBox, st.lastAiBox = some lastBox →
        ¬(0 < cfg.aiMaxJumpPx ∧
          cfg.aiMaxJumpPx * cfg.aiMaxJumpPx < bboxDistSq sel.bbox lastBox)) →
      (processFrameAi cfg st preds fn ts).2.lostCount = 0 ∧
      (processFrameAi cfg st preds fn ts).2.lastAiBox = some sel.bbox) := by
  refine ⟨?_, ?_, ?_, ?_, ?_⟩
  · simp [processFrameAi, targetDetections_nil, htol, incrementLostCount, nullAiResult]
  · simp [processFrameAi, targetDetections_nil, htol, incrementLostCount, nullAiResult]
  · simp [processFrameAi, targetDetections_nil, htol, incrementLostCount, nullAiResult]
  · simp [processFrameAi, targetDetections_nil, htol, incrementLostCount, setLastAiBox,
      nullAiResult]
  · intro st preds fn ts sel hne hsel hnj
    have hne' : (targetDetections cfg preds).isEmpty = false := by
      cases htd : targetDetections cfg preds with
      | nil => exact absurd htd hne
      | cons a l => rfl
    simp only [processFrameAi]
    rw [hne']
    simp only [Bool.false_eq_true, if_false, hsel]
    cases hlb : st.lastAiBox with
    | none => simp [resetLostCount, setLastAiBox]
    | some lastBox =>
      simp [hnj lastBox hlb, resetLostCount, setLastAiBox]

/-- Witness for C5 at a concrete configuration: the first lost frame carries
the box over, and the fourth consecutive lost frame reports null and clears
the lock. -/
theorem lost_tolerance_spec_witness :
    processFrameAi ⟨1/2, some "mouse", .nearestPrev, 200, 3⟩ ⟨some ⟨0, 0, 10, 10⟩, .auto, 0⟩
        [] 1 (1/10) =
      (⟨1, 1/10, some ⟨(bboxCenter ⟨0, 0, 10, 10⟩).1, (bboxCenter ⟨0, 0, 10, 10⟩).2, 1/10⟩,
        0, 0, some ⟨0, 0, 10, 10⟩, some "mouse", some 0⟩, ⟨some ⟨0, 0, 10, 10⟩, .auto, 1⟩) ∧
    processFrameAi ⟨1/2, some "mouse", .nearestPrev, 200, 3⟩ ⟨some ⟨0, 0, 10, 10⟩, .auto, 3⟩
        [] 4 (4/10) =
      (nullAiResult 4 (4/10), ⟨none, .auto, 0⟩) :=
  ⟨(lost_tolerance_spec ⟨1/2, some "mouse", .nearestPrev, 200, 3⟩ ⟨0, 0, 10, 10⟩ .auto
      1 2 3 4 (1/10) (2/10) (3/10) (4/10) rfl).1,
   (lost_tolerance_spec ⟨1/2, some "mouse", .nearestPrev, 200, 3⟩ ⟨0, 0, 10, 10⟩ .auto
      1 2 3 4 (1/10) (2/10) (3/10) (4/10) rfl).2.2.2.1⟩

/-! ## C4 — cancellation semantics -/

/-- C4 counterexample: with 2 frames, sample step 1 and cancellation observed
at the top of the second iteration, the store's results are empty (the frame
processed before cancellation is discarded) and the error field reads
"Tracking cancelled" — while the uncancelled run commits both results. -/
theorem cancel_discards_results_cex :
    (runTracking (fun n => n == 1) (fun n => some (nullAiResult n 0)) 2 1 initialStore).results
        = [] ∧
    (runTracking (fun n => n == 1) (fun n => some (nullAiResult n 0)) 2 1 initialStore).error
        = some "Tracking cancelled" ∧
    (runTracking (fun n => n == 1) (fun n => some (nullAiResult n 0)) 2 1
        initialStore).isTracking = false ∧
    (runTracking (fun _ => false) (fun n => some (nullAiResult n 0)) 2 1 initialStore).results
        = [nullAiResult 0 0, nullAiResult 1 0] := by
  have h2 : trackingFrames 2 1 = [0, 1] := rfl
  norm_num [runTracking, runTrackingLoop, h2, startTracking, initialStore, setTrackingError,
    setTrackingProgress, setTrackingResults, stopTracking]

/-- C4 amended: a cancellation observed at any loop iteration makes the run
exit with the store's results unchanged — hence empty, as `startTracking`
cleared them; the locally accumulated per-frame results are never committed —
and cancellation is surfaced through the error field as "Tracking cancelled"
with `isTracking = false`; there is no distinct Cancelled state. -/
theorem cancel_discards_results :
    (∀ (cancelled : ℕ → Bool) (frameResult : ℕ → Option TrackingResult)
        (totalFrames sampleStep : ℕ) (frames : List ℕ) (acc : List TrackingResult)
        (store : SessionStore),
      (∃ fn ∈ frames, cancelled fn = true) →
      (runTrackingLoop cancelled frameResult totalFrames sampleStep frames acc store).results
          = store.results ∧
      (runTrackingLoop cancelled frameResult totalFrames sampleStep frames acc store).error
          = some "Tracking cancelled" ∧
      (runTrackingLoop cancelled frameResult totalFrames sampleStep frames acc
          store).isTracking = false) ∧
    (∀ (cancelled : ℕ → Bool) (frameResult : ℕ → Option TrackingResult)
        (totalFrames sampleStep : ℕ) (store : SessionStore),
      (∃ fn ∈ trackingFrames totalFrames sampleStep, cancelled fn = true) →
      (runTracking cancelled frameResult totalFrames sampleStep store).results = [] ∧
      (runTracking cancelled frameResult totalFrames sampleStep store).error
          = some "Tracking cancelled" ∧
      (runTracking cancelled frameResult totalFrames sampleStep store).isTracking = false) := by
  have main : ∀ (cancelled : ℕ → Bool) (frameResult : ℕ → Option TrackingResult)
      (totalFrames sampleStep : ℕ) (frames : List ℕ), ∀ (acc : List TrackingResult)
      (store : SessionStore),
      (∃ fn ∈ frames, cancelled fn = true) →
      (runTrackingLoop cancelled frameResult totalFrames sampleStep frames acc store).results
          = store.results ∧
      (runTrackingLoop cancelled frameResult totalFrames sampleStep frames acc store).error
          = some "Tracking cancelled" ∧
      (runTrackingLoop cancelled frameResult totalFrames sampleStep frames acc
          store).isTracking = false := by
    intro cancelled frameResult totalFrames sampleStep frames
    induction frames with
    | nil =>
      intro acc store h
      simp at h
    | cons f rest ih =>
      intro acc store h
      cases hcf : cancelled f with
      | true => simp [runTrackingLoop, hcf, setTrackingError]
      | false =>
        have h' : ∃ fn ∈ rest, cancelled fn = true := by
          rcases h with ⟨fn, hmem, hfn⟩
          rcases List.mem_cons.1 hmem with rfl | hmem'
          · rw [hfn] at hcf; cases hcf
          · exact ⟨fn, hmem', hfn⟩
        simp only [runTrackingLoop, hcf, Bool.false_eq_true, if_false]
        rcases ih _ _ h' with ⟨h1, h2, h3⟩
        exact ⟨h1, h2, h3⟩
  refine ⟨main, ?_⟩
  intro cancelled frameResult totalFrames sampleStep store h
  exact main cancelled frameResult totalFrames sampleStep
    (trackingFrames totalFrames sampleStep) [] (startTracking store) h

/-- Witness for C4's amended claim at the counterexample's schedule. -/
theorem cancel_discards_results_witness :
    (runTracking (fun n => n == 1) (fun n => some (nullAiResult n 0)) 2 1 initialStore).results
        = [] ∧
    (runTracking (fun n => n == 1) (fun n => some (nullAiResult n 0)) 2 1 initialStore).error
        = some "Tracking cancelled" ∧
    (runTracking (fun n => n == 1) (fun n => some (nullAiResult n 0)) 2 1
        initialStore).isTracking = false :=
  cancel_discards_results.2 (fun n => n == 1) (fun n => some (nullAiResult n 0)) 2 1
    initialStore ⟨1, by decide, rfl⟩

/-! ## C10 — progress stays in [0, 100] -/

/-- C10: every store state reachable by session-slice actions has its
tracking progress in `[0, 100]`: `setTrackingProgress` clamps every submitted
value, even though the loops' progress formula can exceed 100 on the final
iteration (e.g. frame 9, step 3, 10 total frames gives 120, stored as 100). -/
theorem progress_in_range :
    (∀ actions : List StoreAction,
      0 ≤ (actions.foldl applyAction initialStore).trackingProgress ∧
      (actions.foldl applyAction initialStore).trackingProgress ≤ 100) ∧
    100 < loopProgress 9 3 10 ∧
    (∀ s : SessionStore, (setTrackingProgress s (loopProgress 9 3 10)).trackingProgress = 100) := by
  refine ⟨?_, ?_, ?_⟩
  · intro actions
    refine foldl_preserves applyAction
      (fun s => 0 ≤ s.trackingProgress ∧ s.trackingProgress ≤ 100) ?_ actions initialStore
      ⟨le_refl 0, by norm_num [initialStore]⟩
    intro s a hs
    cases a with
    | start => exact ⟨le_refl 0, by norm_num [applyAction, startTracking]⟩
    | stop => exact hs
    | reset => exact ⟨le_refl 0, by norm_num [applyAction, resetTracking]⟩
    | setProgress p =>
      exact ⟨le_min (by norm_num) (le_max_left 0 p), min_le_left 100 (max 0 p)⟩
    | addResult r => exact hs
    | setResults rs => exact hs
    | setError e => exact hs
  · norm_num [loopProgress]
  · intro s
    norm_num [setTrackingProgress, loopProgress, min_def, max_def]

/-! ## C6 — playback restoration after background capture -/

theorem captureSamples_ok_paused (v0 : VideoState) (duration : ℚ)
    (readFrame : ℚ → Except String (List ℕ)) (samples : List (List ℕ)) (v : VideoState) :
    captureSamples v0 duration readFrame = .ok (samples, v) → v.paused = v0.paused := by
  intro heq
  refine foldl_preserves _
    (fun acc => ∀ s w, acc = Except.ok (s, w) → w.paused = v0.paused) ?_ (List.range 15)
    (Except.ok ([], v0)) ?_ samples v heq
  · intro acc i hP s w heq'
    cases acc with
    | error e => simp at heq'
    | ok pair =>
      obtain ⟨s', v'⟩ := pair
      dsimp only at heq'
      cases hrf : readFrame (sampleTime duration i) with
      | ok gray =>
        rw [hrf] at heq'
        simp only [Except.ok.injEq, Prod.mk.injEq] at heq'
        rw [← heq'.2]
        exact hP s' v' rfl
      | error e =>
        rw [hrf] at heq'
        simp at heq'
  · intro s w heq'
    simp only [Except.ok.injEq, Prod.mk.injEq] at heq'
    rw [← heq'.2]

/-- C6: the temporal-median capture restores the playback position and
paused state on its success path, but a frame read failing mid-capture
propagates without any restoration: with the video at time 1 and a read
failure at the sample taken at time 5, the procedure exits with the video
left at time 5, not the original time 1. -/
theorem capture_restore_spec :
    (∀ (v0 : VideoState) (duration : ℚ) (readFrame : ℚ → Except String (List ℕ))
        (background : List ℕ) (vf : VideoState),
      captureBackground v0 duration readFrame = .ok (background, vf) →
      vf.currentTime = v0.currentTime ∧ vf.paused = v0.paused) ∧
    captureBackground ⟨1, true⟩ 14 (fun _ => .error "read failed") =
      .error ("read failed", ⟨0, true⟩) ∧
    (VideoState.mk 0 true).currentTime ≠ (VideoState.mk 1 true).currentTime := by
  refine ⟨?_, ?_, by norm_num⟩
  · intro v0 duration readFrame background vf h
    unfold captureBackground at h
    cases hcs : captureSamples v0 duration readFrame with
    | error e => rw [hcs] at h; simp at h
    | ok pair =>
      obtain ⟨samples, v⟩ := pair
      rw [hcs] at h
      simp only [Except.ok.injEq, Prod.mk.injEq] at h
      have hp : v.paused = v0.paused := captureSamples_ok_paused v0 duration readFrame samples v hcs
      rw [← h.2]
      cases hb : v0.paused with
      | true => exact ⟨rfl, by simp [hb, hp]⟩
      | false => exact ⟨rfl, by simp [hb]⟩
  · have hr : List.range 15 = [0, 1, 2, 3, 4, 5, 6, 7, 8, 9, 10, 11, 12, 13, 14] := rfl
    unfold captureBackground captureSamples
    rw [hr]
    simp only [List.foldl_cons, List.foldl_nil]
    norm_num [sampleTime]

/-- Witness for C6's success-path conjunct: a capture in which every frame
read succeeds ends with the original position and paused state. -/
theorem capture_restore_spec_witness :
    (VideoState.mk 1 false).currentTime = (VideoState.mk 1 false).currentTime ∧
    (VideoState.mk 1 false).paused = (VideoState.mk 1 false).paused :=
  capture_restore_spec.1 ⟨1, false⟩ 14 (fun _ => .ok []) [] ⟨1, false⟩ (by
    have hr : List.range 15 = [0, 1, 2, 3, 4, 5, 6, 7, 8, 9, 10, 11, 12, 13, 14] := rfl
    unfold captureBackground captureSamples
    rw [hr]
    simp only [List.foldl_cons, List.foldl_nil]
    norm_num [sampleTime, temporalMedian])

end EduTrack
